import Mathlib

/-!
Shallow embedding of the Harbour Pools passport application
(src/app.js and the data-loading module src/unnamed/part_000, data.js).

State mutations are embedded as pure functions: the in-memory fields
(pools, visited, selectedIndex, currentStampsPage) are passed in and the
updated values are returned.  DOM rendering, the Leaflet map and timers
are outside the embedding; only the state transitions, pagination
arithmetic and the load error path are modelled.  The current date
string produced by new Date().toISOString().split('T')[0] is passed as
an explicit parameter (today).
-/

/-- Visit record stored in the visited map: a done flag and an optional
date string, mirroring the object literals written by app.js
(for example visited[name] = { done: true, date: today }). -/
structure VRecord where
  done : Bool
  date : Option String
  deriving DecidableEq, Repr

/-- The visited map, a JavaScript object keyed by pool name, embedded as
an association list with unique keys kept in insertion order. -/
abbrev VMap := List (String × VRecord)

/-- Property read visited[name]: first matching key, none when absent. -/
def lookupKey : VMap → String → Option VRecord
  | [], _ => none
  | (k, v) :: rest, n => if k = n then some v else lookupKey rest n

/-- Property write visited[name] = v: replace the value of an existing
key in place, otherwise append a new key, as JavaScript object
assignment behaves. -/
def setKey : VMap → String → VRecord → VMap
  | [], n, v => [(n, v)]
  | (k, w) :: rest, n, v =>
      if k = n then (k, v) :: rest else (k, w) :: setKey rest n v

/-- Truthy done flag of a pool, as the rendering code computes it with
const stamped = v && v.done (an absent record counts as not done). -/
def doneOf (m : VMap) (n : String) : Bool :=
  match lookupKey m n with
  | some r => r.done
  | none => false

/-- Date field of a pool record, none when the record is absent. -/
def dateOf (m : VMap) (n : String) : Option String :=
  match lookupKey m n with
  | some r => r.date
  | none => none

/-- Embedding of toggleStamp (app.js lines 161-174), state part only:
if the existing record is present and done, clear it to
done false / date null, otherwise stamp it with the supplied today
string.  The animate argument and the re-render calls only affect the
DOM and are not part of the state transition. -/
def toggleStamp (visited : VMap) (name today : String) : VMap :=
  match lookupKey visited name with
  | some existing =>
      if existing.done then setKey visited name ⟨false, none⟩
      else setKey visited name ⟨true, some today⟩
  | none => setKey visited name ⟨true, some today⟩

/-- Model of the JavaScript String.prototype.trim builtin used by
setStampDate: strip whitespace from both ends of the string.  It is
written over the character list so that it evaluates inside the kernel;
JavaScript also strips some exotic Unicode whitespace, which no claim
exercises. -/
def jsTrim (s : String) : String :=
  String.mk (((s.data.dropWhile Char.isWhitespace).reverse.dropWhile
    Char.isWhitespace).reverse)

/-- Embedding of setStampDate (app.js lines 177-187), state part only:
an empty string is falsy in JavaScript, so the first guard rejects "";
the second guard rejects strings that trim to empty; otherwise the pool
is force-set to done with the trimmed string as its date. -/
def setStampDate (visited : VMap) (name date : String) : VMap :=
  if date = "" then visited
  else
    let trimmed := jsTrim date
    if trimmed = "" then visited
    else setKey visited name ⟨true, some trimmed⟩

/-- Embedding of the reset button handler (app.js lines 320-327), state
part: visited = {}. -/
def resetVisited : VMap := []

/-- JavaScript remainder a % b for integer operands and positive b: the
result carries the sign of the dividend (truncated division), unlike
the Euclidean % of Lean Int, so -2 % 5 evaluates to -2 in JavaScript. -/
def jsMod (a b : Int) : Int :=
  if a < 0 then -((-a) % b) else a % b

/-- Embedding of selectIndex (app.js lines 194-202), state part: an
empty pool list returns early keeping the current selection, otherwise
selectedIndex = (idx + pools.length) % pools.length with the JavaScript
remainder. -/
def selectIndex (poolCount : Nat) (current idx : Int) : Int :=
  if poolCount = 0 then current
  else jsMod (idx + poolCount) poolCount

/-- Embedding of moveSelection (app.js lines 205-207). -/
def moveSelection (poolCount : Nat) (current step : Int) : Int :=
  selectIndex poolCount current (current + step)

/-- Page size of the passport grid (app.js line 248). -/
def stampsPerPage : Nat := 3

/-- Total page count of the stamps view (app.js line 249):
Math.max(1, Math.ceil(pools.length / 3)), with the ceiling of a natural
division written as (n + 3 - 1) / 3. -/
def totalPagesFor (poolCount : Nat) : Nat :=
  max 1 ((poolCount + stampsPerPage - 1) / stampsPerPage)

/-- Clamp of currentStampsPage into range (app.js lines 252-253):
raise negative pages to 0, then lower pages past the last one to
totalPages - 1. -/
def clampPage (totalPages : Nat) (page : Int) : Int :=
  let p1 := if page < 0 then 0 else page
  if p1 > (totalPages : Int) - 1 then (totalPages : Int) - 1 else p1

/-- Result of a renderStamps call, state part: the computed page count,
the clamped current page, the value handed to writeStampsPage, and the
names of the pools shown on the page (the grid renders one card per
element of pools.slice(start, start + 3)). -/
structure StampsRender where
  totalPages : Nat
  page : Int
  persistedPage : Int
  pagePoolNames : List String
  deriving DecidableEq, Repr

/-- Embedding of renderStamps (app.js lines 243-312), state part:
compute totalPages, clamp currentStampsPage, persist the clamped page,
and take the slice of the pool list for that page.  Pools are
represented by their names, the only pool field the grid reads. -/
def renderStamps (poolNames : List String) (currentStampsPage : Int) : StampsRender :=
  let tp := totalPagesFor poolNames.length
  let p := clampPage tp currentStampsPage
  let start := p * (stampsPerPage : Int)
  ⟨tp, p, p, (poolNames.drop start.toNat).take stampsPerPage⟩

/-- Raw record of pools.json before coercion: lat and lng may be
numbers or numeric strings. -/
structure RawPool (α : Type) where
  name : String
  lat : α
  lng : α

/-- Pool record after loadPools has coerced lat and lng to numbers. -/
structure LoadedPool (β : Type) where
  name : String
  lat : β
  lng : β
  deriving DecidableEq, Repr

/-- Transport result of fetch('pools.json') as loadPools consumes it:
the ok flag, the status code, and the parsed body. -/
structure FetchResponse (α : Type) where
  ok : Bool
  status : Nat
  body : List (RawPool α)

/-- Embedding of loadPools (data.js lines 20-35): a non-ok response
throws an Error carrying the status; otherwise each record is mapped
with the Number coercion on lat and lng.  The coercion itself is passed
as a parameter because no claim constrains it and IEEE floating point
is outside the embedding. -/
def loadPools {α β : Type} (toNumber : α → β) (r : FetchResponse α) :
    Except Nat (List (LoadedPool β)) :=
  if r.ok = false then Except.error r.status
  else Except.ok (r.body.map fun p => ⟨p.name, toNumber p.lat, toNumber p.lng⟩)

/-- Raw content of one persisted storage key: missing on first run,
corrupt, or holding a valid value. -/
inductive StoredData (α : Type) where
  | absent
  | corrupt
  | valid (a : α)

/-- Modelled from the spec: the storage module (storage.js) is imported
by app.js but is not under src/.  Per spec section 4.2, readVisited
deserializes the visited map and corrupt or absent data yields an empty
map. -/
def readVisited : StoredData VMap → VMap
  | .valid m => m
  | _ => []

/-- Modelled from the spec: storage.js is not under src/.  Per spec
sections 4.2 and 8, readSelection returns the persisted selection index
and falls back to index 0 on missing or invalid data. -/
def readSelection : StoredData Int → Int
  | .valid i => i
  | _ => 0

/-- Modelled from the spec: storage.js is not under src/.  Per spec
sections 4.2 and 8, readStampsPage returns the persisted stamps page
and falls back to page 0 on missing or invalid data. -/
def readStampsPage : StoredData Int → Int
  | .valid i => i
  | _ => 0

/-- Embedding of the startup bounds check in init (app.js lines
375-378): a persisted selection index that is negative or at least the
pool count is replaced by 0 before setupMap and the first selectIndex
call use it. -/
def initSelection (poolCount : Nat) (saved : Int) : Int :=
  if saved < 0 ∨ saved ≥ (poolCount : Int) then 0 else saved

/-- Record-level invariant of the data model: the date is non-null only
if the done flag is true. -/
def recInv (r : VRecord) : Bool := r.date.isNone || r.done

/-- Map-level invariant: every stored record satisfies recInv. -/
def mapInv (m : VMap) : Bool := m.all fun p => recInv p.2

/-! Helper lemmas shared by the claim theorems. -/

theorem lookupKey_setKey_self (m : VMap) (n : String) (v : VRecord) :
    lookupKey (setKey m n v) n = some v := by
  induction m with
  | nil => simp [setKey, lookupKey]
  | cons head rest ih =>
      obtain ⟨k, w⟩ := head
      by_cases h : k = n
      · simp [setKey, lookupKey, h]
      · simp [setKey, lookupKey, h, ih]

theorem lookupKey_setKey_ne (m : VMap) (n o : String) (v : VRecord)
    (h : o ≠ n) : lookupKey (setKey m n v) o = lookupKey m o := by
  induction m with
  | nil => simp [setKey, lookupKey, Ne.symm h]
  | cons head rest ih =>
      obtain ⟨k, w⟩ := head
      by_cases hk : k = n
      · subst hk
        simp [setKey, lookupKey, Ne.symm h]
      · simp [setKey, lookupKey, hk, ih]

theorem mapInv_setKey (m : VMap) (n : String) (v : VRecord)
    (hm : mapInv m = true) (hv : recInv v = true) :
    mapInv (setKey m n v) = true := by
  induction m with
  | nil => simp [setKey, mapInv, hv]
  | cons head rest ih =>
      obtain ⟨k, w⟩ := head
      simp only [mapInv, List.all_cons, Bool.and_eq_true] at hm
      by_cases hk : k = n
      · simp [setKey, mapInv, hk, hv, hm.2]
      · have := ih hm.2
        simp only [mapInv] at this
        simp [setKey, mapInv, hk, hm.1, this]

theorem selectIndex_eq_emod (poolCount : Nat) (current idx : Int)
    (hP : 0 < poolCount) (hi : 0 ≤ idx + poolCount) :
    selectIndex poolCount current idx = (idx + poolCount) % poolCount := by
  unfold selectIndex jsMod
  rw [if_neg (by omega), if_neg (by omega)]

/-- C1: for a pool count N greater than zero and an integer argument i
with i at least -N, selectIndex keeps the current selection inside
[0, N) and is invariant under shifting i by N.  This is the claim
restricted to i at least -N: below that, the JavaScript remainder of
the negative intermediate value idx + N is negative (see the
counterexample). -/
theorem selectIndex_range_mod (poolCount : Nat) (current idx : Int)
    (hP : 0 < poolCount) (hi : -(poolCount : Int) ≤ idx) :
    0 ≤ selectIndex poolCount current idx ∧
    selectIndex poolCount current idx < poolCount ∧
    selectIndex poolCount current idx = selectIndex poolCount current (idx + poolCount) := by
  rw [selectIndex_eq_emod poolCount current idx hP (by omega),
    selectIndex_eq_emod poolCount current (idx + poolCount) hP (by omega)]
  have hper : (idx + (poolCount : Int) + (poolCount : Int)) % (poolCount : Int)
      = (idx + (poolCount : Int)) % (poolCount : Int) := by
    simp
  refine ⟨Int.emod_nonneg _ (by omega), ?_, hper.symm⟩
  have h2 := Int.emod_lt_of_pos (idx + (poolCount : Int))
    (show (0 : Int) < (poolCount : Int) by omega)
  omega

/-- Witness for selectIndex_range_mod at five pools and index -1, the
wrap-around example of the spec. -/
theorem selectIndex_range_mod_witness :
    0 ≤ selectIndex 5 0 (-1) ∧ selectIndex 5 0 (-1) < 5 ∧
    selectIndex 5 0 (-1) = selectIndex 5 0 (-1 + 5) :=
  selectIndex_range_mod 5 0 (-1) (by decide) (by decide)

/-- Counterexample to C1 as stated: with five pools, selectIndex at -7
evaluates to -2, which is outside [0, 5), and differs from selectIndex
at -7 + 5. -/
theorem selectIndex_claim_cex :
    selectIndex 5 0 (-7) = -2 ∧ ¬ 0 ≤ selectIndex 5 0 (-7) ∧
    selectIndex 5 0 (-7) ≠ selectIndex 5 0 (-7 + 5) := by decide

/-- Shape lemma: toggleStamp always writes exactly one of the two
record literals of the source to the named key. -/
theorem toggleStamp_as_setKey (m : VMap) (name t : String) :
    toggleStamp m name t = setKey m name ⟨false, none⟩
    ∨ toggleStamp m name t = setKey m name ⟨true, some t⟩ := by
  unfold toggleStamp
  cases lookupKey m name with
  | none => right; rfl
  | some r => cases hr : r.done <;> simp [hr]

/-- C2: toggling a pool twice with no intervening setStampDate restores
its done flag, the date is null whenever the done flag ends up false,
and a single toggle from a not-visited state stamps the pool with the
supplied today string. -/
theorem toggleStamp_involution (m : VMap) (name t1 t2 : String) :
    doneOf (toggleStamp (toggleStamp m name t1) name t2) name = doneOf m name
    ∧ (doneOf (toggleStamp (toggleStamp m name t1) name t2) name = false →
        dateOf (toggleStamp (toggleStamp m name t1) name t2) name = none)
    ∧ (doneOf m name = false →
        lookupKey (toggleStamp m name t1) name = some ⟨true, some t1⟩) := by
  cases hl : lookupKey m name with
  | none => simp [toggleStamp, doneOf, dateOf, hl, lookupKey_setKey_self]
  | some r =>
      obtain ⟨rd, rdate⟩ := r
      cases rd <;>
        simp [toggleStamp, doneOf, dateOf, hl, lookupKey_setKey_self]

/-- Witness for toggleStamp_involution on the empty visited map. -/
theorem toggleStamp_involution_witness :
    doneOf (toggleStamp (toggleStamp ([] : VMap) "X" "2025-06-01") "X" "2025-06-02") "X"
      = doneOf ([] : VMap) "X"
    ∧ (doneOf (toggleStamp (toggleStamp ([] : VMap) "X" "2025-06-01") "X" "2025-06-02") "X" = false →
        dateOf (toggleStamp (toggleStamp ([] : VMap) "X" "2025-06-01") "X" "2025-06-02") "X" = none)
    ∧ (doneOf ([] : VMap) "X" = false →
        lookupKey (toggleStamp ([] : VMap) "X" "2025-06-01") "X" = some ⟨true, some "2025-06-01"⟩) :=
  toggleStamp_involution [] "X" "2025-06-01" "2025-06-02"

/-- C3 amended: setStampDate is a no-op on input that is empty or
trims to empty, and on any other input it force-sets the pool to
visited with the trimmed input string as the date, with no calendar
validation (the input is quantified over all strings and only the
emptiness of its trim is inspected). -/
theorem setStampDate_spec (m : VMap) (name date : String) :
    (jsTrim date = "" → setStampDate m name date = m)
    ∧ (jsTrim date ≠ "" →
        lookupKey (setStampDate m name date) name = some ⟨true, some (jsTrim date)⟩) := by
  constructor
  · intro ht
    unfold setStampDate
    by_cases hd : date = ""
    · simp [hd]
    · simp [hd, ht]
  · intro ht
    have hd : date ≠ "" := by
      intro h
      apply ht
      rw [h]
      decide
    unfold setStampDate
    simp [hd, ht, lookupKey_setKey_self]

/-- Witness for setStampDate_spec: a whitespace-only input is a no-op
and a padded date is stored trimmed. -/
theorem setStampDate_spec_witness :
    setStampDate ([] : VMap) "X" " " = ([] : VMap)
    ∧ lookupKey (setStampDate ([] : VMap) "X" " 2025-06-01 ") "X"
        = some ⟨true, some (jsTrim " 2025-06-01 ")⟩ :=
  ⟨(setStampDate_spec [] "X" " ").1 (by decide),
   (setStampDate_spec [] "X" " 2025-06-01 ").2 (by decide)⟩

/-- Counterexample to C3 as stated: on the input " a " (not empty, not
whitespace-only) setStampDate does act, but it stores the trimmed
string "a", not the given literal string " a ". -/
theorem setStampDate_literal_cex :
    setStampDate ([] : VMap) "X" " a " ≠ ([] : VMap)
    ∧ lookupKey (setStampDate ([] : VMap) "X" " a ") "X" ≠ some ⟨true, some " a "⟩
    ∧ lookupKey (setStampDate ([] : VMap) "X" " a ") "X" = some ⟨true, some "a"⟩ := by
  decide

/-- C6: the three mutations of the visited map preserve the data-model
invariant that a record's date is non-null only if its done flag is
true (and the reset state satisfies it outright). -/
theorem stampOps_preserve_invariant (m : VMap) (name t d : String)
    (h : mapInv m = true) :
    mapInv (toggleStamp m name t) = true
    ∧ mapInv (setStampDate m name d) = true
    ∧ mapInv resetVisited = true := by
  refine ⟨?_, ?_, rfl⟩
  · rcases toggleStamp_as_setKey m name t with h1 | h1 <;> rw [h1] <;>
      exact mapInv_setKey m name _ h rfl
  · unfold setStampDate
    by_cases h1 : d = ""
    · simp [h1, h]
    · by_cases h2 : jsTrim d = ""
      · simp [h1, h2, h]
      · simp only [h1, h2, if_false, if_neg]
        exact mapInv_setKey m name _ h rfl

/-- Witness for stampOps_preserve_invariant on the empty visited map. -/
theorem stampOps_invariant_witness :
    mapInv (toggleStamp ([] : VMap) "X" "2025-06-01") = true
    ∧ mapInv (setStampDate ([] : VMap) "X" "2025-06-02") = true
    ∧ mapInv resetVisited = true :=
  stampOps_preserve_invariant [] "X" "2025-06-01" "2025-06-02" rfl

/-- C10: toggleStamp and setStampDate leave every key other than the
named one unchanged, and toggleStamp always leaves a record under the
named key (the operations never consult the pool list, so this holds
for names outside it as well). -/
theorem stampOps_frame (m : VMap) (name other t d : String)
    (h : other ≠ name) :
    lookupKey (toggleStamp m name t) other = lookupKey m other
    ∧ lookupKey (setStampDate m name d) other = lookupKey m other
    ∧ (lookupKey (toggleStamp m name t) name).isSome = true := by
  refine ⟨?_, ?_, ?_⟩
  · rcases toggleStamp_as_setKey m name t with h1 | h1 <;> rw [h1] <;>
      exact lookupKey_setKey_ne m name other _ h
  · unfold setStampDate
    by_cases h1 : d = ""
    · simp [h1]
    · by_cases h2 : jsTrim d = ""
      · simp [h1, h2]
      · simp [h1, h2, lookupKey_setKey_ne m name other _ h]
  · rcases toggleStamp_as_setKey m name t with h1 | h1 <;>
      rw [h1, lookupKey_setKey_self] <;> rfl

/-- Witness for stampOps_frame on the empty visited map with two
distinct names. -/
theorem stampOps_frame_witness :
    lookupKey (toggleStamp ([] : VMap) "A" "2025-06-01") "B" = lookupKey ([] : VMap) "B"
    ∧ lookupKey (setStampDate ([] : VMap) "A" "2025-06-02") "B" = lookupKey ([] : VMap) "B"
    ∧ (lookupKey (toggleStamp ([] : VMap) "A" "2025-06-01") "A").isSome = true :=
  stampOps_frame [] "A" "B" "2025-06-01" "2025-06-02" (by decide)

/-- Characterisation of the page clamp: for at least one page, the two
guards of renderStamps compute the usual clamp into [0, totalPages-1]. -/
theorem clampPage_eq_clamp (tp : Nat) (page : Int) (h : 1 ≤ tp) :
    clampPage tp page = max 0 (min page ((tp : Int) - 1)) := by
  simp only [clampPage]
  by_cases h1 : page < 0
  · rw [if_pos h1]
    by_cases h2 : (0 : Int) > (tp : Int) - 1
    · omega
    · rw [if_neg h2]
      omega
  · rw [if_neg h1]
    by_cases h2 : page > (tp : Int) - 1
    · rw [if_pos h2]
      omega
    · rw [if_neg h2]
      omega

/-- C4 amended: for a positive pool count P the stamps view has
ceil(P/3) pages (the ceiling written as (P + 2) / 3), and the last page
shows P - 3 * (totalPages - 1) pools, a number between 1 and 3.  The
positivity restriction is forced: at P = 0 the source takes
Math.max(1, ...) and reports one page, not zero (see the
counterexample). -/
theorem renderStamps_pagination (names : List String) (p : Int)
    (hP : 0 < names.length) :
    (renderStamps names p).totalPages = (names.length + 2) / 3
    ∧ (renderStamps names
          (((names.length + 2) / 3 - 1 : Nat) : Int)).pagePoolNames.length
        = names.length - 3 * ((names.length + 2) / 3 - 1)
    ∧ 1 ≤ names.length - 3 * ((names.length + 2) / 3 - 1)
    ∧ names.length - 3 * ((names.length + 2) / 3 - 1) ≤ 3 := by
  have htp : totalPagesFor names.length = (names.length + 2) / 3 := by
    unfold totalPagesFor stampsPerPage
    omega
  have h1 : 1 ≤ totalPagesFor names.length := by
    unfold totalPagesFor
    omega
  have hq : clampPage (totalPagesFor names.length)
      (((names.length + 2) / 3 - 1 : Nat) : Int)
      = (((names.length + 2) / 3 - 1 : Nat) : Int) := by
    rw [clampPage_eq_clamp _ _ h1, htp]
    omega
  have hstart : ((clampPage (totalPagesFor names.length)
      (((names.length + 2) / 3 - 1 : Nat) : Int)) * (stampsPerPage : Int)).toNat
      = 3 * ((names.length + 2) / 3 - 1) := by
    rw [hq]
    unfold stampsPerPage
    omega
  refine ⟨htp, ?_, by omega, by omega⟩
  calc (renderStamps names
          (((names.length + 2) / 3 - 1 : Nat) : Int)).pagePoolNames.length
      = ((names.drop ((clampPage (totalPagesFor names.length)
          (((names.length + 2) / 3 - 1 : Nat) : Int))
            * (stampsPerPage : Int)).toNat).take stampsPerPage).length := rfl
    _ = names.length - 3 * ((names.length + 2) / 3 - 1) := by
        rw [hstart]
        simp only [List.length_take, List.length_drop, stampsPerPage]
        omega

/-- Witness for renderStamps_pagination on a seven-pool list. -/
theorem renderStamps_pagination_witness :
    (renderStamps ["P1", "P2", "P3", "P4", "P5", "P6", "P7"] 0).totalPages
      = (["P1", "P2", "P3", "P4", "P5", "P6", "P7"].length + 2) / 3
    ∧ (renderStamps ["P1", "P2", "P3", "P4", "P5", "P6", "P7"]
          (((["P1", "P2", "P3", "P4", "P5", "P6", "P7"].length + 2) / 3 - 1 : Nat) : Int)).pagePoolNames.length
        = ["P1", "P2", "P3", "P4", "P5", "P6", "P7"].length
            - 3 * ((["P1", "P2", "P3", "P4", "P5", "P6", "P7"].length + 2) / 3 - 1)
    ∧ 1 ≤ ["P1", "P2", "P3", "P4", "P5", "P6", "P7"].length
            - 3 * ((["P1", "P2", "P3", "P4", "P5", "P6", "P7"].length + 2) / 3 - 1)
    ∧ ["P1", "P2", "P3", "P4", "P5", "P6", "P7"].length
            - 3 * ((["P1", "P2", "P3", "P4", "P5", "P6", "P7"].length + 2) / 3 - 1) ≤ 3 :=
  renderStamps_pagination ["P1", "P2", "P3", "P4", "P5", "P6", "P7"] 0 (by decide)

/-- Counterexample to C4 as stated: with zero pools the source reports
Math.max(1, Math.ceil(0 / 3)) = 1 total page, while ceil(0 / 3) is 0. -/
theorem renderStamps_totalPages_cex :
    (renderStamps ([] : List String) 0).totalPages = 1
    ∧ (List.length ([] : List String) + 2) / 3 = 0 := by decide

/-- C5: for every pool list and every requested page, renderStamps
clamps the page into [0, totalPages - 1] - the result equals the clamp
of the request, not a wrap - persists exactly the clamped value, and
with seven pools a requested page 5 becomes page 2. -/
theorem renderStamps_page_clamped (names : List String) (page : Int) :
    0 ≤ (renderStamps names page).page
    ∧ (renderStamps names page).page
        ≤ ((renderStamps names page).totalPages : Int) - 1
    ∧ (renderStamps names page).page
        = max 0 (min page (((renderStamps names page).totalPages : Int) - 1))
    ∧ (renderStamps names page).persistedPage = (renderStamps names page).page
    ∧ (names.length = 7 → page = 5 → (renderStamps names page).page = 2) := by
  have h1 : 1 ≤ totalPagesFor names.length := by
    unfold totalPagesFor
    omega
  have hc := clampPage_eq_clamp (totalPagesFor names.length) page h1
  have hpage : (renderStamps names page).page
      = clampPage (totalPagesFor names.length) page := rfl
  have htot : (renderStamps names page).totalPages
      = totalPagesFor names.length := rfl
  refine ⟨?_, ?_, ?_, rfl, ?_⟩
  · rw [hpage, hc]
    omega
  · rw [hpage, htot, hc]
    omega
  · rw [hpage, htot, hc]
  · intro h7 h5
    rw [hpage, h7, h5]
    decide

/-- Witness for renderStamps_page_clamped: the out-of-range request of
the spec scenario, page 5 with seven pools, lands on page 2. -/
theorem renderStamps_page_clamped_witness :
    (renderStamps ["P1", "P2", "P3", "P4", "P5", "P6", "P7"] 5).page = 2 :=
  (renderStamps_page_clamped ["P1", "P2", "P3", "P4", "P5", "P6", "P7"] 5).2.2.2.2 rfl rfl

/-- C7: each of the three persisted reads returns its safe default -
empty map, index 0, page 0 - when the underlying storage is absent or
corrupt; the reads are total functions, so no error is raised. -/
theorem storage_reads_default :
    readVisited StoredData.absent = ([] : VMap)
    ∧ readVisited StoredData.corrupt = ([] : VMap)
    ∧ readSelection StoredData.absent = 0
    ∧ readSelection StoredData.corrupt = 0
    ∧ readStampsPage StoredData.absent = 0
    ∧ readStampsPage StoredData.corrupt = 0 :=
  ⟨rfl, rfl, rfl, rfl, rfl, rfl⟩

/-- C8: when the transport reports a non-success status, loadPools
fails with an error carrying that status code and never returns a pool
list. -/
theorem loadPools_error_on_failure {α β : Type} (toNumber : α → β)
    (r : FetchResponse α) (h : r.ok = false) :
    loadPools toNumber r = Except.error r.status
    ∧ ∀ ps, loadPools toNumber r ≠ Except.ok ps := by
  have he : loadPools toNumber r = Except.error r.status := by
    unfold loadPools
    rw [if_pos h]
  refine ⟨he, fun ps hok => ?_⟩
  rw [he] at hok
  exact Except.noConfusion hok

/-- Witness for loadPools_error_on_failure at a 404 response. -/
theorem loadPools_error_witness :
    loadPools (fun n : Nat => n) (⟨false, 404, []⟩ : FetchResponse Nat)
      = Except.error 404 :=
  (loadPools_error_on_failure (fun n : Nat => n)
    (⟨false, 404, []⟩ : FetchResponse Nat) rfl).1

/-- C9: a persisted selection index that is negative or at least the
pool count is reset to 0 by the startup bounds check, before setupMap
and the first selectIndex call consume it. -/
theorem initSelection_resets (poolCount : Nat) (saved : Int)
    (h : saved < 0 ∨ saved ≥ (poolCount : Int)) :
    initSelection poolCount saved = 0 := by
  unfold initSelection
  rw [if_pos h]

/-- Witness for initSelection_resets: saved index 9 with five pools. -/
theorem initSelection_resets_witness : initSelection 5 9 = 0 :=
  initSelection_resets 5 9 (Or.inr (by decide))
